import Mathlib

/-!
Shallow embedding of the feedback-analyzer intelligence service
(`src/services/llm_service.py` and `src/services/chat_service.py`),
together with theorems settling the specification claims.

Conventions of the embedding:
* Timestamps (`int(time.time())`, `datetime.now()`) are `Nat` seconds;
  `datetime.timedelta(minutes=1)` is `60`.
* `str(uuid.uuid4())` is modelled by a fresh-id counter rendered with
  `toString`; distinctness of fresh ids from pre-existing ids is an explicit
  hypothesis where a theorem needs it (mirroring uuid collision-freeness).
* The dynamic decision dict returned by the model is a structure whose
  optional keys (`should_persist_reply`, `user_limited_until`,
  `reopen_session`, `reply_stage`) are `Option`s; the orchestrator's
  `dict.get(key, default)` reads become `Option.getD`.
* Network effects (OpenAI call, Twilio media lookup/download, S3 upload,
  WhatsApp send, DynamoDB/RDS writes) are oracles passed in as functions,
  so every embedded operation is a total computable function.
-/

namespace FeedbackSvc

/-- Message direction as used in the transformed history
(`"inbound"`/`"outbound"` in the Python dicts). -/
inductive Direction where
  | inbound
  | outbound
deriving DecidableEq, Repr

/-- One entry of the flattened conversation history handed to the classifier:
`{"type": "text", "text": ..., "direction": ...}` or
`{"type": "media", "url": ..., "direction": ...}`. -/
inductive MsgEntry where
  | text (body : String) (direction : Direction)
  | media (url : String) (direction : Direction)
deriving DecidableEq, Repr

/-- The decision dict produced by `LLM.analyze_conversation`.  Keys the model
is prompted to emit are plain fields; keys only sometimes present
(`should_persist_reply`, `user_limited_until`, `reopen_session`) are
`Option`s, `none` meaning the key is absent from the dict.  The fixed
"too long"/fallback dicts carry `media_url: ""` instead of a `media_urls`
key; since the orchestrator reads `result.get("media_urls", [])`, the
absent key is modelled as `media_urls := []`. -/
structure Decision where
  is_product_name_present : Bool := false
  is_feedback_present : Bool := false
  did_user_confirm_media_availability : Bool := false
  is_media_present : Bool := false
  reply : String := ""
  product_name : String := ""
  feedback : String := ""
  media_urls : List String := []
  is_feedback_session_complete : Bool := false
  is_x_rated_conversation : Bool := false
  is_crime_rated_conversation : Bool := false
  is_immoral_conversation : Bool := false
  is_too_short : Bool := false
  is_irrelevant : Bool := false
  reply_stage : Option String := none
  should_persist_reply : Option Bool := none
  user_limited_until : Option Nat := none
  reopen_session : Option Bool := none
deriving DecidableEq, Repr

/-- Outcome of one OpenAI chat-completions attempt, as seen by the retry
loop in `analyze_conversation`.  `success (some d)` is a response whose
content parses (`json.loads`) to `d`; `success none` is a response with
malformed JSON content; `rateLimit` is `RateLimitError`; `apiStatus c` is
`APIStatusError` with `status_code = c`; `otherErr` is any other exception
raised by the call. -/
inductive ModelOutcome where
  | success (parsed : Option Decision)
  | rateLimit
  | apiStatus (code : Nat)
  | otherErr
deriving DecidableEq, Repr

/-- Oracle giving the outcome of the `attempt_index`-th model call. -/
def ModelOracle := Nat → ModelOutcome

/-- The fixed suspension notice installed by the safety-flag post-processing
in `analyze_conversation`. -/
def suspensionReply : String :=
  "We detected misuse of the system, and your access has been temporarily suspended for 1 minute. Thank you for your understanding."

/-- The fixed decision returned by the oversized-message pre-filter. -/
def messageTooLongDecision : Decision :=
  { reply := "Message too long. Please shorten it to under 1000 characters and try again."
    should_persist_reply := some true }

/-- The fixed safe-fallback decision returned by the outer
`except Exception` handler of `analyze_conversation`. -/
def fallbackDecision : Decision :=
  { reply := "Failed to process your message. Please try again."
    should_persist_reply := some false }

/-- The pre-filter test: `msg["type"] == "text" and msg.get("text")` and
`len(msg["text"]) > 1000`.  (The Python truthiness test on the text merely
skips empty strings, whose length cannot exceed 1000, so it is absorbed by
the length test.) -/
def isOversizedText : MsgEntry → Bool
  | .text t _ => decide (1000 < t.length)
  | .media _ _ => false

/-- Test for whether some entry of the history trips the pre-filter; the Python
loop returns on the first such entry, and every trip returns the same fixed
decision, so `List.any` has the same value. -/
def tooLong (messages : List MsgEntry) : Bool :=
  messages.any isOversizedText

/-- The `for attempt_index in range(max_attempts)` retry loop of
`analyze_conversation`, with `fuel` the number of remaining iterations
(so the Python guard `attempt_index < max_attempts - 1` is `fuel ≠ 1`,
i.e. after consuming this iteration, `f ≠ 0`).  Returns the loop's result
(`.error ()` when an exception escapes the loop), the number of model
calls made, and the list of `asyncio.sleep` durations (always
`wait_seconds = 1`). -/
def runAttempts (oracle : ModelOracle) : Nat → Nat →
    Except Unit (Option Decision) × Nat × List Nat
  | _, 0 => (.error (), 0, [])
  | i, f + 1 =>
    match oracle i with
    | .success r => (.ok r, 1, [])
    | .rateLimit =>
      if f = 0 then (.error (), 1, [])
      else
        let rest := runAttempts oracle (i + 1) f
        (rest.1, rest.2.1 + 1, 1 :: rest.2.2)
    | .apiStatus c =>
      if c = 429 ∧ f ≠ 0 then
        let rest := runAttempts oracle (i + 1) f
        (rest.1, rest.2.1 + 1, 1 :: rest.2.2)
      else (.error (), 1, [])
    | .otherErr => (.error (), 1, [])

/-- The model call with `max_attempts = 3`. -/
def modelCall (oracle : ModelOracle) : Except Unit (Option Decision) × Nat × List Nat :=
  runAttempts oracle 0 3

/-- The function anySafetyFlag is the disjunction guarding the post-processing override:
x-rated, crime-rated, immoral, or irrelevant. -/
def anySafetyFlag (d : Decision) : Bool :=
  d.is_x_rated_conversation || d.is_crime_rated_conversation ||
    d.is_immoral_conversation || d.is_irrelevant

/-- The safety-flag post-processing of `analyze_conversation`: when any of
the four flags is set, overwrite `should_persist_reply`, `reply`,
`user_limited_until` (now + 1 minute) and `reopen_session` in the result
dict. -/
def postProcess (now : Nat) (d : Decision) : Decision :=
  if anySafetyFlag d then
    { d with
      should_persist_reply := some false
      reply := suspensionReply
      user_limited_until := some (now + 60)
      reopen_session := some true }
  else d

/-- Embedding of `LLM.analyze_conversation`: pre-filter, retry loop, JSON parse,
post-processing, and the outer `except Exception` that degrades every
failure (loop exception or parse failure) to the fixed fallback decision.
The result carries the decision together with the model-call count and the
sleep trace; the Python coroutine can only ever return a dict — it never
propagates an exception — which the embedding reflects by being a total
function into `Decision × Nat × List Nat`. -/
def analyze_conversation (oracle : ModelOracle) (now : Nat)
    (messages : List MsgEntry) : Decision × Nat × List Nat :=
  if tooLong messages then (messageTooLongDecision, 0, [])
  else
    let r := modelCall oracle
    ((match r.1 with
      | .ok (some d) => postProcess now d
      | .ok none => fallbackDecision
      | .error _ => fallbackDecision), r.2.1, r.2.2)

/-! ## Chat service: stores, session state machine, orchestration -/

/-- One item of the DynamoDB `sessions` table. -/
structure SessionRec where
  session_id : String
  sender_id : String
  status : String
  created_at : Nat
  updated_at : Option Nat := none
  user_limited_until : Option Nat := none
deriving DecidableEq, Repr

/-- One item of the DynamoDB `chats` table.  `content` is flattened into
`text`/`media_items`/`reply_stage`; `metadata` into `delivery_status`. -/
structure ChatRec where
  message_id : String
  sender_id : String
  session_id : String
  chat_type : String
  created_at : Nat
  text : Option String := none
  media_items : List String := []
  reply_stage : Option String := none
  delivery_status : Option String := none
deriving DecidableEq, Repr

/-- One row of the relational `feedback` table
(`Feedback(sender_id, product_name, feedback_text, media_urls)`). -/
structure FeedbackRec where
  sender_id : String
  product_name : String
  feedback_text : String
  media_urls : List String
deriving DecidableEq, Repr

/-- The durable state visible to the chat service: the two DynamoDB tables,
the relational feedback table, and the fresh-id counter standing in for
`uuid.uuid4()`.  Lists are kept in insertion order; `put_item` appends. -/
structure Store where
  sessions : List SessionRec
  chats : List ChatRec
  feedbacks : List FeedbackRec
  nextId : Nat
deriving DecidableEq, Repr

/-- The feedback payload assembled by `get_reply_message` when the decision
marks the session complete. -/
structure FeedbackPayload where
  product_name : String
  feedback_text : String
  media_urls : List String
deriving DecidableEq, Repr

/-- The tuple returned by `get_reply_message`.  `feedback_data = none`
models the empty dict `{}` used when the session is not complete. -/
structure ReplyInfo where
  reply : String
  session_id : String
  should_persist_reply : Bool
  reply_stage : Option String
  is_feedback_session_complete : Bool
  feedback_data : Option FeedbackPayload
deriving DecidableEq, Repr

/-- One Twilio media item (`media.sid`, `media.uri`). -/
structure MediaItem where
  sid : String
  uri : String
deriving DecidableEq, Repr

/-- Oracle for the blocking network side effects of one reply cycle.
`mediaList` is `client.messages(message_sid).media.list()` (`.error` = the
SDK raised); `download` maps a resolved media URL to its content and
`Content-Type` header (`.error` = request failure or non-2xx status);
`uploadOk` tells whether `s3.put_object` on a key succeeds; `sendOk`
whether the Twilio WhatsApp send succeeds; `saveChatOk` whether
`chat_table.put_item` succeeds; `dbCommitOk` whether the relational
feedback commit succeeds. -/
structure EffectOracle where
  mediaList : String → Except Unit (List MediaItem)
  download : String → Except Unit (String × Option String)
  uploadOk : String → Bool
  sendOk : Bool
  saveChatOk : Bool
  dbCommitOk : Bool

/-- Update every session item with the given key
(`session_table.update_item(Key={"session_id": sid}, ...)`; the key is
unique in DynamoDB, and in well-formed stores here). -/
def updateSession (st : Store) (sid : String) (f : SessionRec → SessionRec) : Store :=
  { st with sessions := st.sessions.map fun s => if s.session_id == sid then f s else s }

/-- Embedding of `ChatService.mark_session_as_limited`: set `user_limited_until` and
`updated_at` on the session. -/
def mark_session_as_limited (st : Store) (now : Nat) (sid : String) (limitTs : Nat) : Store :=
  updateSession st sid fun s =>
    { s with user_limited_until := some limitTs, updated_at := some now }

/-- Embedding of `ChatService.mark_session_as_completed`.  Faithful to the source: when
`reopen` is set, the function puts a brand-new `active` session and
returns its id WITHOUT updating the old session's status (the
`update_item` call is only reached in the non-reopen branch); otherwise it
sets the session's status to `completed`.  Returns the session id the
caller is to use next, paired with the updated store. -/
def mark_session_as_completed (st : Store) (now : Nat) (sender sid : String)
    (reopen : Bool) : String × Store :=
  if reopen then
    let nid := toString st.nextId
    (nid,
      { st with
        nextId := st.nextId + 1
        sessions := st.sessions ++
          [{ session_id := nid, sender_id := sender, status := "active",
             created_at := now }] })
  else
    (sid, updateSession st sid fun s =>
      { s with status := "completed", updated_at := some now })

/-- The session query of `get_user_unresolved_session_message`:
`Limit=1`, most recent first, `FilterExpression status == "active"`.
DynamoDB applies `Limit` before the filter, so the query inspects only the
sender's most recent session and returns it exactly when it is active. -/
def queryActiveSession (st : Store) (sender : String) : Option SessionRec :=
  match (st.sessions.filter fun s => s.sender_id == sender).getLast? with
  | none => none
  | some s => if s.status == "active" then some s else none

/-- Raw chat items of a session in ascending creation order
(the paginated `SessionIndex` query with `ScanIndexForward=True`). -/
def chatsOfSession (st : Store) (sid : String) : List ChatRec :=
  st.chats.filter fun c => c.session_id == sid

/-- Transformation of one chat item into history entries: a text entry when
`content.get("text")` is truthy, then one media entry per
`content.media_items`. -/
def transformChat (c : ChatRec) : List MsgEntry :=
  let dir := if c.chat_type == "inbound" then Direction.inbound else Direction.outbound
  (match c.text with
   | some t => if t ≠ "" then [MsgEntry.text t dir] else []
   | none => []) ++ c.media_items.map fun u => MsgEntry.media u dir

/-- Embedding of `ChatService.get_user_unresolved_session_message`: resolve the sender's
active session and all its messages.  Returns `none` when there is no
active session, or — note — when the active session has NO raw chat items
(the `if not messages` early return precedes the transformation). -/
def get_user_unresolved_session_message (st : Store) (sender : String) :
    Option (List MsgEntry × String) :=
  match queryActiveSession st sender with
  | none => none
  | some s =>
    if (chatsOfSession st s.session_id).isEmpty then none
    else some (((chatsOfSession st s.session_id).map transformChat).flatten, s.session_id)

/-- The session-resolution prologue of `get_reply_message`: when no
conversation is resolved, put a fresh `active` session and start from an
empty history.  Returns (history, session id, store). -/
def resolveSession (now : Nat) (st : Store) (sender : String) :
    List MsgEntry × String × Store :=
  match get_user_unresolved_session_message st sender with
  | none =>
    let nid := toString st.nextId
    ([], nid,
      { st with
        nextId := st.nextId + 1
        sessions := st.sessions ++
          [{ session_id := nid, sender_id := sender, status := "active",
             created_at := now }] })
  | some (msgs, sid) => (msgs, sid, st)

/-- Embedding of `ChatService.get_reply_message`: resolve the session, run the
classifier, then interpret the decision in source order — completion,
reopening, rate-limit marker — each guarded exactly as in the code
(`session_id`, a uuid string, is always truthy, so the `and session_id`
conjuncts are vacuous).  Returns the reply tuple, the updated store, and
the classifier call statistics. -/
def get_reply_message (oracle : ModelOracle) (now : Nat) (st : Store)
    (sender : String) : ReplyInfo × Store × Nat × List Nat :=
  let rs := resolveSession now st sender
  let a := analyze_conversation oracle now rs.1
  let dec := a.1
  let st2 := if dec.is_feedback_session_complete then
      (mark_session_as_completed rs.2.2 now sender rs.2.1 false).2
    else rs.2.2
  let rp := if dec.reopen_session.getD false then
      mark_session_as_completed st2 now sender rs.2.1 true
    else (rs.2.1, st2)
  let st4 := match dec.user_limited_until with
    | some t => mark_session_as_limited rp.2 now rp.1 t
    | none => rp.2
  ({ reply := dec.reply
     session_id := rp.1
     should_persist_reply := dec.should_persist_reply.getD true
     reply_stage := dec.reply_stage
     is_feedback_session_complete := dec.is_feedback_session_complete
     feedback_data := if dec.is_feedback_session_complete then
         some { product_name := dec.product_name
                feedback_text := dec.feedback
                media_urls := dec.media_urls }
       else none },
   st4, a.2.1, a.2.2)

/-! ## Media relay -/

/-- Python's `str.split(sep)` for a one-character separator, keeping empty
segments (`"a//b" ↦ ["a", "", "b"]`, `"" ↦ [""]`), defined by structural
recursion on the character list so that concrete instances reduce in the
kernel. -/
def splitCharAux (c : Char) : List Char → List Char → List String
  | [], acc => [String.mk acc.reverse]
  | x :: xs, acc =>
    if x = c then String.mk acc.reverse :: splitCharAux c xs []
    else splitCharAux c xs (x :: acc)

/-- See `splitCharAux`. -/
def splitChar (c : Char) (s : String) : List String :=
  splitCharAux c s.data []

/-- Embedding of `ChatService.upload_to_s3`: derive the extension from the content type,
build the namespaced key, put the object, and return the public URL; any
upload failure is caught and yields `none`. -/
def upload_to_s3 (bucket : String) (eff : EffectOracle)
    (contentType message_sid media_sid : String) : Option String :=
  let extension := (splitChar '/' contentType).getLastD ""
  let key := "feedback-media/" ++ message_sid ++ "/" ++ media_sid ++ "." ++ extension
  if eff.uploadOk key then
    some ("https://" ++ bucket ++ ".s3.amazonaws.com/" ++ key)
  else none

/-- Embedding of `ChatService.download_single_media`: extract `parts[-3]`/`parts[-1]`
(an `IndexError` on short urls is caught by the blanket handler), look the
media up with the provider, download it, and upload it to S3.  Every
failure path is caught and returns `none` (the Python `None`), exactly one
reference at a time. -/
def download_single_media (bucket : String) (eff : EffectOracle)
    (url : String) : Option String :=
  let parts := splitChar '/' url
  if parts.length < 3 then none
  else
    let message_sid := parts.getD (parts.length - 3) ""
    let media_sid := parts.getD (parts.length - 1) ""
    match eff.mediaList message_sid with
    | .error _ => none
    | .ok items =>
      match items.find? fun m => m.sid == media_sid with
      | none => none
      | some m =>
        let media_url := "https://api.twilio.com" ++ (m.uri.replace ".json" "")
        match eff.download media_url with
        | .error _ => none
        | .ok dl =>
          upload_to_s3 bucket eff (dl.2.getD "application/octet-stream")
            message_sid media_sid

/-- The relay fan-out of `download_media_files`: relay each reference
independently (`asyncio.gather` with exceptions captured, though
`download_single_media` already returns `None` on every failure) and keep
the successful S3 URLs in order. -/
def relayAll (bucket : String) (eff : EffectOracle) (urls : List String) : List String :=
  urls.filterMap (download_single_media bucket eff)

/-- Embedding of `ChatService.download_media_files`: build the feedback row, replacing
`media_urls` by the relayed S3 URLs when the requested list is non-empty,
then hand it to `save_feedback_data`.  Returns the row together with the
commit outcome (`save_feedback_data` re-raises on a failed commit, which
the caller's `gather(return_exceptions=True)` captures). -/
def download_media_files (bucket : String) (eff : EffectOracle)
    (sender : String) (fd : FeedbackPayload) : FeedbackRec × Bool :=
  ({ sender_id := sender
     product_name := fd.product_name
     feedback_text := fd.feedback_text
     media_urls := if fd.media_urls.length > 0 then relayAll bucket eff fd.media_urls
       else fd.media_urls },
   eff.dbCommitOk)

/-! ## reply_user -/

/-- The summary dict returned by `reply_user`. -/
structure Summary where
  session_id : String
  message_id : String
  status : String
deriving DecidableEq, Repr

/-- Observable outcome of one `reply_user` cycle.  `result` is the value
returned to the HTTP route (`.error` would be an exception escalated to
the caller — the embedded cycle's store operations are total, and the
gathered side effects are captured, so every branch below produces `.ok`).
The `…Attempted`/`…Succeeded` fields record the fate of each gathered side
effect: the WhatsApp send, the optional outbound-chat persist, and the
optional media-relay-plus-feedback-write. -/
structure CycleResult where
  result : Except Unit Summary
  store : Store
  sendSucceeded : Bool
  persistAttempted : Bool
  persistSucceeded : Bool
  feedbackAttempted : Bool
  feedbackSucceeded : Bool
deriving Repr

/-- Embedding of `ChatService.reply_user`: get the reply tuple, generate a fresh
`message_id`, build the outbound chat item, then run the three side
effects under `asyncio.gather(..., return_exceptions=True)` — every
failure is captured, nothing is rolled back, and the summary
`{"session_id", "message_id", "status": "sent"}` is returned
unconditionally. -/
def reply_user (oracle : ModelOracle) (eff : EffectOracle) (bucket : String)
    (now : Nat) (st : Store) (sender : String) : CycleResult :=
  let g := get_reply_message oracle now st sender
  let info := g.1
  let st1 := g.2.1
  let mid := toString st1.nextId
  let st2 := { st1 with nextId := st1.nextId + 1 }
  let chat : ChatRec :=
    { message_id := mid
      sender_id := sender
      session_id := info.session_id
      chat_type := "outbound"
      created_at := now
      text := some info.reply
      reply_stage := info.reply_stage
      delivery_status := some "sent" }
  let st3 := if info.should_persist_reply && eff.saveChatOk then
      { st2 with chats := st2.chats ++ [chat] }
    else st2
  let fb := match info.feedback_data with
    | some fd =>
      let dm := download_media_files bucket eff sender fd
      ((if dm.2 then { st3 with feedbacks := st3.feedbacks ++ [dm.1] } else st3),
        true, dm.2)
    | none => (st3, false, true)
  { result := .ok { session_id := info.session_id, message_id := mid, status := "sent" }
    store := fb.1
    sendSucceeded := eff.sendOk
    persistAttempted := info.should_persist_reply
    persistSucceeded := info.should_persist_reply && eff.saveChatOk
    feedbackAttempted := fb.2.1
    feedbackSucceeded := fb.2.2 }

/-- Sessions of a sender currently in status `active`. -/
def activeSessionsOf (st : Store) (sender : String) : List SessionRec :=
  st.sessions.filter fun s => s.sender_id == sender && s.status == "active"

/-! ## Classifier theorems -/

/-- If the first attempt succeeds, the loop stops after one call. -/
theorem runAttempts_first_success (oracle : ModelOracle) (i f : Nat)
    (r : Option Decision) (h : oracle i = .success r) :
    runAttempts oracle i (f + 1) = (.ok r, 1, []) := by
  simp [runAttempts, h]

/-- The retry loop never makes more calls than it has fuel. -/
theorem runAttempts_calls_le (oracle : ModelOracle) :
    ∀ (f i : Nat), (runAttempts oracle i f).2.1 ≤ f := by
  intro f
  induction f with
  | zero => intro i; simp [runAttempts]
  | succ f ih =>
    intro i
    simp only [runAttempts]
    cases oracle i with
    | success r => simp
    | rateLimit =>
      by_cases hf : f = 0
      · simp [hf]
      · simpa [hf] using ih (i + 1)
    | apiStatus c =>
      by_cases hc : c = 429 ∧ f ≠ 0
      · simpa [hc] using ih (i + 1)
      · simp [hc]
    | otherErr => simp

/-- C3: whenever the parsed model output has any of the four safety flags
set, `analyze_conversation` returns that output with the reply overridden
to the fixed suspension notice, `should_persist_reply := false`,
`user_limited_until := now + 1 minute` and `reopen_session := true`,
regardless of what the model proposed for those four fields. -/
theorem safety_flag_override (oracle : ModelOracle) (now : Nat)
    (msgs : List MsgEntry) (d : Decision)
    (hlen : tooLong msgs = false)
    (h0 : oracle 0 = .success (some d))
    (hflag : anySafetyFlag d = true) :
    analyze_conversation oracle now msgs =
      ({ d with
          should_persist_reply := some false
          reply := suspensionReply
          user_limited_until := some (now + 60)
          reopen_session := some true }, 1, []) := by
  simp [analyze_conversation, hlen, modelCall, runAttempts, h0, postProcess, hflag]

/-- C3 witness: a model output proposing its own reply, persistence and no
reopening is fully overridden when `is_x_rated_conversation` is set. -/
theorem safety_flag_override_witness :
    analyze_conversation
        (fun _ => .success (some
          { reply := "model says hi", is_x_rated_conversation := true,
            should_persist_reply := some true, reopen_session := some false,
            user_limited_until := some 999 }))
        100 [MsgEntry.text "bad" Direction.inbound] =
      ({ reply := suspensionReply, is_x_rated_conversation := true,
         should_persist_reply := some false, reopen_session := some true,
         user_limited_until := some 160 }, 1, []) :=
  safety_flag_override _ 100 _ _ (by decide) rfl (by decide)

/-- C6: a history containing an inbound text entry longer than 1000
characters short-circuits: no model call is made (call count 0) and the
fixed "message too long" decision is returned, which persists the reply
and does not complete the session. -/
theorem oversized_inbound_short_circuit (oracle : ModelOracle) (now : Nat)
    (msgs : List MsgEntry) (t : String)
    (hmem : MsgEntry.text t Direction.inbound ∈ msgs)
    (hlen : 1000 < t.length) :
    analyze_conversation oracle now msgs = (messageTooLongDecision, 0, [])
      ∧ messageTooLongDecision.should_persist_reply = some true
      ∧ messageTooLongDecision.is_feedback_session_complete = false := by
  have htl : tooLong msgs = true := by
    simp only [tooLong, List.any_eq_true]
    exact ⟨_, hmem, by simp [isOversizedText, hlen]⟩
  exact ⟨by simp [analyze_conversation, htl], rfl, rfl⟩

/-- C6 witness: a 1001-character inbound message triggers the pre-filter
even when the model oracle would fail. -/
theorem oversized_inbound_short_circuit_witness :
    analyze_conversation (fun _ => .otherErr) 0
        [MsgEntry.text (String.mk (List.replicate 1001 'x')) Direction.inbound] =
        (messageTooLongDecision, 0, [])
      ∧ messageTooLongDecision.should_persist_reply = some true
      ∧ messageTooLongDecision.is_feedback_session_complete = false :=
  oversized_inbound_short_circuit _ 0 _ (String.mk (List.replicate 1001 'x'))
    (by simp) (by rw [String.length_mk, List.length_replicate]; decide)

/-- C7: a first attempt failing with anything but rate limiting — a
non-429 `APIStatusError`, any other exception, or a success whose body is
malformed JSON — is not retried: exactly one call is made, no sleeps
happen, and the fixed safe-fallback decision (generic retry reply, no
persistence, no flags, no completion) is returned instead of an exception
propagating. -/
theorem permanent_error_fallback (oracle : ModelOracle) (now : Nat)
    (msgs : List MsgEntry)
    (hlen : tooLong msgs = false)
    (h : (∃ c, oracle 0 = .apiStatus c ∧ c ≠ 429) ∨ oracle 0 = .otherErr ∨
      oracle 0 = .success none) :
    analyze_conversation oracle now msgs = (fallbackDecision, 1, [])
      ∧ fallbackDecision.should_persist_reply = some false
      ∧ anySafetyFlag fallbackDecision = false
      ∧ fallbackDecision.is_feedback_session_complete = false := by
  refine ⟨?_, rfl, rfl, rfl⟩
  rcases h with ⟨c, hc, hne⟩ | h | h
  · simp [analyze_conversation, hlen, modelCall, runAttempts, hc, hne]
  · simp [analyze_conversation, hlen, modelCall, runAttempts, h]
  · simp [analyze_conversation, hlen, modelCall, runAttempts, h]

/-- C7 witness: a non-retryable provider error on the first attempt yields
the fallback decision after a single call. -/
theorem permanent_error_fallback_witness :
    analyze_conversation (fun _ => .apiStatus 500) 0
        [MsgEntry.text "hello" Direction.inbound] = (fallbackDecision, 1, [])
      ∧ fallbackDecision.should_persist_reply = some false
      ∧ anySafetyFlag fallbackDecision = false
      ∧ fallbackDecision.is_feedback_session_complete = false :=
  permanent_error_fallback _ 0 _ (by decide) (Or.inl ⟨500, rfl, by decide⟩)

/-- C8: with rate-limit errors on the first two attempts and a success on
the third, `analyze_conversation` returns the successful model result
untouched (given no safety flag), having made exactly 3 calls with the
fixed 1-second delay before each retry; and no run ever makes more than 3
model calls. -/
theorem rate_limit_retry (oracle : ModelOracle) (now : Nat)
    (msgs : List MsgEntry) (d : Decision)
    (hlen : tooLong msgs = false)
    (h0 : oracle 0 = .rateLimit) (h1 : oracle 1 = .rateLimit)
    (h2 : oracle 2 = .success (some d))
    (hflag : anySafetyFlag d = false) :
    analyze_conversation oracle now msgs = (d, 3, [1, 1])
      ∧ ∀ (o : ModelOracle) (n : Nat) (m : List MsgEntry),
          (analyze_conversation o n m).2.1 ≤ 3 := by
  constructor
  · simp [analyze_conversation, hlen, modelCall, runAttempts, h0, h1, h2,
      postProcess, hflag]
  · intro o n m
    unfold analyze_conversation
    split
    · simp
    · exact runAttempts_calls_le o 3 0

/-- C8 witness: the concrete rate-limit/rate-limit/success schedule
returns the benign model decision undegraded after 3 calls and two
1-second sleeps. -/
theorem rate_limit_retry_witness :
    analyze_conversation
        (fun n => if n < 2 then .rateLimit
          else .success (some { reply := "What product?", reply_stage := some "product_name" }))
        0 [] =
        ({ reply := "What product?", reply_stage := some "product_name" }, 3, [1, 1])
      ∧ ∀ (o : ModelOracle) (n : Nat) (m : List MsgEntry),
          (analyze_conversation o n m).2.1 ≤ 3 :=
  rate_limit_retry _ 0 [] _ rfl rfl rfl rfl (by decide)

/-! ## Store-preservation lemmas -/

@[simp] theorem updateSession_feedbacks (st : Store) (sid : String)
    (f : SessionRec → SessionRec) :
    (updateSession st sid f).feedbacks = st.feedbacks := rfl

@[simp] theorem updateSession_chats (st : Store) (sid : String)
    (f : SessionRec → SessionRec) :
    (updateSession st sid f).chats = st.chats := rfl

@[simp] theorem updateSession_nextId (st : Store) (sid : String)
    (f : SessionRec → SessionRec) :
    (updateSession st sid f).nextId = st.nextId := rfl

@[simp] theorem mark_limited_feedbacks (st : Store) (now : Nat)
    (sid : String) (t : Nat) :
    (mark_session_as_limited st now sid t).feedbacks = st.feedbacks := rfl

@[simp] theorem mark_limited_chats (st : Store) (now : Nat)
    (sid : String) (t : Nat) :
    (mark_session_as_limited st now sid t).chats = st.chats := rfl

@[simp] theorem mark_completed_feedbacks (st : Store) (now : Nat)
    (sender sid : String) (r : Bool) :
    (mark_session_as_completed st now sender sid r).2.feedbacks = st.feedbacks := by
  cases r <;> rfl

@[simp] theorem mark_completed_chats (st : Store) (now : Nat)
    (sender sid : String) (r : Bool) :
    (mark_session_as_completed st now sender sid r).2.chats = st.chats := by
  cases r <;> rfl

@[simp] theorem resolveSession_feedbacks (now : Nat) (st : Store) (sender : String) :
    (resolveSession now st sender).2.2.feedbacks = st.feedbacks := by
  unfold resolveSession
  split <;> rfl

@[simp] theorem resolveSession_chats (now : Nat) (st : Store) (sender : String) :
    (resolveSession now st sender).2.2.chats = st.chats := by
  unfold resolveSession
  split <;> rfl

theorem get_reply_message_feedbacks (oracle : ModelOracle) (now : Nat)
    (st : Store) (sender : String) :
    (get_reply_message oracle now st sender).2.1.feedbacks = st.feedbacks := by
  simp only [get_reply_message]
  split <;> split <;> split <;> simp

theorem get_reply_message_chats (oracle : ModelOracle) (now : Nat)
    (st : Store) (sender : String) :
    (get_reply_message oracle now st sender).2.1.chats = st.chats := by
  simp only [get_reply_message]
  split <;> split <;> split <;> simp

/-! ## The reopen scenario: safety flag trips, session is reopened -/

/-- A model output tripping the x-rated safety flag mid-conversation
(`is_feedback_session_complete` stays false). -/
def xRatedModelDecision : Decision :=
  { reply := "model reply", is_x_rated_conversation := true }

/-- Effects for scenarios that never touch the network media path: sends,
chat writes and feedback commits succeed; the media/relay oracles fail. -/
def plainEffects : EffectOracle :=
  ⟨fun _ => .error (), fun _ => .error (), fun _ => false, true, true, true⟩

/-- A store holding one active session `s1` for sender `u` with one
inbound chat message. -/
def reopenScenarioStore : Store :=
  { sessions := [{ session_id := "s1", sender_id := "u", status := "active",
                   created_at := 0 }]
    chats := [{ message_id := "m1", sender_id := "u", session_id := "s1",
                chat_type := "inbound", created_at := 1, text := some "bad stuff" }]
    feedbacks := []
    nextId := 0 }

/-- C1: the claim that at most one session per sender is ever `active` is
violated by the code: on a safety-flag reopen,
`mark_session_as_completed(..., reopen_session=True)` creates a second
active session without closing the first, so after one `reply_user` cycle
the sender `u` has two simultaneously active sessions. -/
theorem two_active_sessions_after_reopen :
    (activeSessionsOf
        (reply_user (fun _ => .success (some xRatedModelDecision)) plainEffects
          "bkt" 5 reopenScenarioStore "u").store "u").length = 2 := by
  decide

/-- C2: at the same failing input, the cycle opens the new session `"0"`
(status `active`, carrying `user_limited_until = now + 60`) and uses its id
for the summary, but the prior session `s1` is left with status `active`
untouched — it is never marked `completed`, contrary to the claim. -/
theorem reopen_does_not_close_old_session :
    (reply_user (fun _ => .success (some xRatedModelDecision)) plainEffects
        "bkt" 5 reopenScenarioStore "u").store.sessions =
      [{ session_id := "s1", sender_id := "u", status := "active", created_at := 0 },
       { session_id := "0", sender_id := "u", status := "active", created_at := 5,
         updated_at := some 5, user_limited_until := some 65 }]
    ∧ (reply_user (fun _ => .success (some xRatedModelDecision)) plainEffects
        "bkt" 5 reopenScenarioStore "u").result =
      .ok { session_id := "0", message_id := "1", status := "sent" } := by
  exact ⟨by decide, rfl⟩

/-! ## C4: gathered side effects -/

/-- The relay path reads only the media/download/upload oracles, never the
send/persist/commit outcomes. -/
theorem relayAll_gather_flags_canon (bucket : String)
    (ml : String → Except Unit (List MediaItem))
    (dl : String → Except Unit (String × Option String))
    (up : String → Bool) (so sc db : Bool) (urls : List String) :
    relayAll bucket ⟨ml, dl, up, so, sc, db⟩ urls =
      relayAll bucket ⟨ml, dl, up, true, true, true⟩ urls := rfl

/-- C4 (amended): the three gathered side effects are mutually isolated and
NONE of their failures — including the outbound send — is escalated:
`reply_user` always returns the `{session_id, message_id, "sent"}` summary;
the session transitions ignore all three effect outcomes; the persisted
chats do not depend on the send or feedback-commit outcomes; and the
persisted feedback rows do not depend on the send or chat-persist
outcomes. -/
theorem gathered_side_effects_isolated (oracle : ModelOracle)
    (ml : String → Except Unit (List MediaItem))
    (dl : String → Except Unit (String × Option String))
    (up : String → Bool) (so so' sc sc' db db' : Bool)
    (bucket : String) (now : Nat) (st : Store) (sender : String) :
    (reply_user oracle ⟨ml, dl, up, so, sc, db⟩ bucket now st sender).result =
        .ok { session_id := (get_reply_message oracle now st sender).1.session_id
              message_id := toString (get_reply_message oracle now st sender).2.1.nextId
              status := "sent" }
      ∧ (reply_user oracle ⟨ml, dl, up, so, sc, db⟩ bucket now st sender).store.sessions =
        (reply_user oracle ⟨ml, dl, up, so', sc', db'⟩ bucket now st sender).store.sessions
      ∧ (reply_user oracle ⟨ml, dl, up, so, sc, db⟩ bucket now st sender).store.chats =
        (reply_user oracle ⟨ml, dl, up, so', sc, db'⟩ bucket now st sender).store.chats
      ∧ (reply_user oracle ⟨ml, dl, up, so, sc, db⟩ bucket now st sender).store.feedbacks =
        (reply_user oracle ⟨ml, dl, up, so', sc', db⟩ bucket now st sender).store.feedbacks := by
  refine ⟨rfl, ?_, ?_, ?_⟩ <;>
  · simp only [reply_user, download_media_files]
    rcases (get_reply_message oracle now st sender).1.feedback_data with _ | fd <;>
      cases sc <;> cases sc' <;> cases db <;> cases db' <;>
        simp [relayAll_gather_flags_canon] <;> (try split <;> rfl)

/-- C4 counterexample: with the outbound send failing (`sendOk = false`)
and everything else healthy, the cycle does NOT escalate: it still returns
the summary with delivery status `"sent"`.  This refutes "escalates a
failure to the caller if and only if the outbound send path fails". -/
theorem send_failure_not_escalated :
    (reply_user
        (fun _ => .success (some { reply := "What product?", reply_stage := some "product_name" }))
        ⟨fun _ => .error (), fun _ => .error (), fun _ => false, false, true, true⟩
        "bkt" 0 ⟨[], [], [], 0⟩ "u").sendSucceeded = false
    ∧ (reply_user
        (fun _ => .success (some { reply := "What product?", reply_stage := some "product_name" }))
        ⟨fun _ => .error (), fun _ => .error (), fun _ => false, false, true, true⟩
        "bkt" 0 ⟨[], [], [], 0⟩ "u").result =
      .ok { session_id := "0", message_id := "1", status := "sent" } :=
  ⟨rfl, rfl⟩

/-! ## C9: per-reference relay isolation -/

/-- C9: a batch containing an unresolvable reference (one whose relay
yields `none`): the failing reference contributes nothing, the sibling
references before and after it are relayed exactly as they would be on
their own, and the feedback write still takes place (its outcome is the
commit oracle, untouched by the relay failure) with exactly the
successfully relayed URLs. -/
theorem media_relay_isolation (bucket : String) (eff : EffectOracle)
    (sender : String) (fd : FeedbackPayload) (urls1 urls2 : List String)
    (bad : String)
    (hbad : download_single_media bucket eff bad = none)
    (hfd : fd.media_urls = urls1 ++ bad :: urls2) :
    relayAll bucket eff fd.media_urls =
        relayAll bucket eff urls1 ++ relayAll bucket eff urls2
      ∧ (download_media_files bucket eff sender fd).1.media_urls =
        relayAll bucket eff urls1 ++ relayAll bucket eff urls2
      ∧ (download_media_files bucket eff sender fd).2 = eff.dbCommitOk := by
  have h1 : relayAll bucket eff fd.media_urls =
      relayAll bucket eff urls1 ++ relayAll bucket eff urls2 := by
    simp [relayAll, hfd, List.filterMap_append, List.filterMap_cons, hbad]
  refine ⟨h1, ?_, rfl⟩
  have hlen : 0 < fd.media_urls.length := by simp [hfd]
  simp [download_media_files, hlen, h1]

/-- Effects under which the Twilio lookup, the download and the S3 upload
all succeed. -/
def relaySuccessEffects : EffectOracle :=
  ⟨fun _ => .ok [⟨"md1", "/x/md1.json"⟩], fun _ => .ok ("bytes", some "image/jpeg"),
    fun _ => true, true, true, true⟩

/-- C9 witness: in the batch `[good, "zz"]`, the malformed reference
`"zz"` yields nothing while its sibling is still relayed, and the
feedback write proceeds. -/
theorem media_relay_isolation_witness :
    relayAll "b" relaySuccessEffects
        (FeedbackPayload.media_urls
          ⟨"p", "f", ["https://api.twilio.com/acc/Messages/MM1/Media/md1", "zz"]⟩) =
        relayAll "b" relaySuccessEffects
            ["https://api.twilio.com/acc/Messages/MM1/Media/md1"] ++
          relayAll "b" relaySuccessEffects []
      ∧ (download_media_files "b" relaySuccessEffects "u"
          ⟨"p", "f", ["https://api.twilio.com/acc/Messages/MM1/Media/md1", "zz"]⟩).1.media_urls =
        relayAll "b" relaySuccessEffects
            ["https://api.twilio.com/acc/Messages/MM1/Media/md1"] ++
          relayAll "b" relaySuccessEffects []
      ∧ (download_media_files "b" relaySuccessEffects "u"
          ⟨"p", "f", ["https://api.twilio.com/acc/Messages/MM1/Media/md1", "zz"]⟩).2 =
        relaySuccessEffects.dbCommitOk :=
  media_relay_isolation "b" relaySuccessEffects "u"
    ⟨"p", "f", ["https://api.twilio.com/acc/Messages/MM1/Media/md1", "zz"]⟩
    ["https://api.twilio.com/acc/Messages/MM1/Media/md1"] [] "zz" (by decide) rfl

/-! ## C5: completion writes a matching feedback record -/

/-- Every URL produced by the media relay is a constructed S3 URL under
the `feedback-media/` prefix of the configured bucket — never the raw
provider reference. -/
theorem download_single_media_durable (bucket : String) (eff : EffectOracle)
    (url u : String) (h : download_single_media bucket eff url = some u) :
    ∃ k, u = "https://" ++ (bucket ++ (".s3.amazonaws.com/" ++ ("feedback-media/" ++ k))) := by
  unfold download_single_media upload_to_s3 at h
  simp only [Option.some.injEq] at h
  repeat' split at h
  all_goals simp only [reduceCtorEq, Option.some.injEq] at h
  simp only [String.append_assoc] at h
  exact ⟨_, h.symm⟩

/-- Membership in the relayed batch comes from a successful single relay. -/
theorem relayAll_durable (bucket : String) (eff : EffectOracle)
    (urls : List String) (u : String) (h : u ∈ relayAll bucket eff urls) :
    ∃ k, u = "https://" ++ (bucket ++ (".s3.amazonaws.com/" ++ ("feedback-media/" ++ k))) := by
  obtain ⟨url, _, hurl⟩ := List.mem_filterMap.mp h
  exact download_single_media_durable bucket eff url u hurl

/-- A session returned by the limit-1 active query belongs to the store,
belongs to the sender, and is active. -/
theorem queryActiveSession_spec (st : Store) (sender : String) (s : SessionRec)
    (h : queryActiveSession st sender = some s) :
    s ∈ st.sessions ∧ s.sender_id = sender ∧ s.status = "active" := by
  unfold queryActiveSession at h
  split at h
  · exact absurd h (by simp)
  · rename_i s' hlast
    split at h
    · rename_i hact
      have hs : s' = s := by simpa using h
      rw [← hs]
      rcases List.getLast?_eq_some_iff.mp hlast with ⟨l', hl'⟩
      have hmem : s' ∈ st.sessions.filter fun x => x.sender_id == sender := by
        rw [hl']; exact List.mem_append_right _ (by simp)
      have hf := List.mem_filter.mp hmem
      exact ⟨hf.1, by simpa using hf.2, by simpa using hact⟩
    · exact absurd h (by simp)

/-- A resolved conversation's session id names an active session of the
store. -/
theorem unresolved_some_spec (st : Store) (sender : String)
    (m : List MsgEntry) (sid : String)
    (h : get_user_unresolved_session_message st sender = some (m, sid)) :
    ∃ s ∈ st.sessions, s.session_id = sid ∧ s.status = "active" := by
  unfold get_user_unresolved_session_message at h
  split at h
  · exact absurd h (by simp)
  · rename_i s' hq
    split at h
    · exact absurd h (by simp)
    · have hs := queryActiveSession_spec st sender s' hq
      have hsid : s'.session_id = sid := by
        have := (Option.some.injEq _ _).mp h
        exact congrArg Prod.snd this
      exact ⟨s', hs.1, hsid, hs.2.2⟩

/-- After session resolution the threaded session id is present in the
threaded store. -/
theorem resolved_sid_in_store (now : Nat) (st : Store) (sender : String) :
    ∃ s ∈ (resolveSession now st sender).2.2.sessions,
      s.session_id = (resolveSession now st sender).2.1 := by
  unfold resolveSession
  split
  · exact ⟨⟨toString st.nextId, sender, "active", now, none, none⟩, by simp, rfl⟩
  · rename_i m sid h
    obtain ⟨s, hmem, hsid, _⟩ := unresolved_some_spec st sender m sid h
    exact ⟨s, hmem, hsid⟩

/-- Updating a session by id preserves the id and status of every record
when the update function does. -/
theorem updateSession_preserves (st : Store) (sid2 : String)
    (g : SessionRec → SessionRec)
    (hgid : ∀ x, (g x).session_id = x.session_id)
    (hgst : ∀ x, (g x).status = x.status)
    (s : SessionRec) (h : s ∈ st.sessions) :
    ∃ s' ∈ (updateSession st sid2 g).sessions,
      s'.session_id = s.session_id ∧ s'.status = s.status := by
  refine ⟨(fun x => if x.session_id == sid2 then g x else x) s,
    List.mem_map_of_mem _ h, ?_⟩
  by_cases hx : s.session_id == sid2 <;> simp [hx, hgid, hgst]

/-- Marking a resolved session completed yields a record with that id in
status `completed`. -/
theorem mark_completed_spec (st : Store) (now : Nat) (sender sid : String)
    (s : SessionRec) (hmem : s ∈ st.sessions) (hsid : s.session_id = sid) :
    ∃ s' ∈ (mark_session_as_completed st now sender sid false).2.sessions,
      s'.session_id = sid ∧ s'.status = "completed" := by
  simp only [mark_session_as_completed, if_neg (Bool.false_ne_true)]
  refine ⟨(fun x => if x.session_id == sid then
      { x with status := "completed", updated_at := some now } else x) s,
    List.mem_map_of_mem _ hmem, ?_⟩
  simp [hsid]

@[simp] theorem download_media_files_snd (bucket : String) (eff : EffectOracle)
    (sender : String) (fd : FeedbackPayload) :
    (download_media_files bucket eff sender fd).2 = eff.dbCommitOk := rfl

/-- The function reply_user only ever appends chats and feedback rows; the session
records it returns are the ones left by `get_reply_message`. -/
theorem reply_user_sessions (oracle : ModelOracle) (eff : EffectOracle)
    (bucket : String) (now : Nat) (st : Store) (sender : String) :
    (reply_user oracle eff bucket now st sender).store.sessions =
      (get_reply_message oracle now st sender).2.1.sessions := by
  simp only [reply_user]
  rcases (get_reply_message oracle now st sender).1.feedback_data with _ | fd <;>
    (repeat' split) <;> rfl

/-- Marking a session limited preserves every record's id and status. -/
theorem mark_limited_preserves (st : Store) (now : Nat) (sid2 : String) (t : Nat)
    (s : SessionRec) (h : s ∈ st.sessions) :
    ∃ s' ∈ (mark_session_as_limited st now sid2 t).sessions,
      s'.session_id = s.session_id ∧ s'.status = s.status :=
  updateSession_preserves st sid2
    (fun x => { x with user_limited_until := some t, updated_at := some now })
    (fun _ => rfl) (fun _ => rfl) s h

/-- The reopen branch only appends a session; existing records survive. -/
theorem mark_completed_reopen_preserves (st : Store) (now : Nat)
    (sender sid : String) (s : SessionRec) (h : s ∈ st.sessions) :
    s ∈ (mark_session_as_completed st now sender sid true).2.sessions :=
  List.mem_append_left _ h

/-- When the decision completes the session, `get_reply_message` leaves a
record with the resolved session id in status `completed`. -/
theorem get_reply_message_marks_completed (oracle : ModelOracle) (now : Nat)
    (st : Store) (sender : String)
    (hc : (analyze_conversation oracle now
      (resolveSession now st sender).1).1.is_feedback_session_complete = true) :
    ∃ s ∈ (get_reply_message oracle now st sender).2.1.sessions,
      s.session_id = (resolveSession now st sender).2.1 ∧ s.status = "completed" := by
  obtain ⟨s0, h0mem, h0id⟩ := resolved_sid_in_store now st sender
  obtain ⟨s1, h1mem, h1id, h1st⟩ := mark_completed_spec (resolveSession now st sender).2.2
    now sender (resolveSession now st sender).2.1 s0 h0mem h0id
  cases hr : (analyze_conversation oracle now
      (resolveSession now st sender).1).1.reopen_session.getD false <;>
    cases hu : (analyze_conversation oracle now
      (resolveSession now st sender).1).1.user_limited_until <;>
    simp only [get_reply_message, hc, hr, hu, if_true, Bool.false_eq_true, if_false]
  · exact ⟨s1, h1mem, h1id, h1st⟩
  · obtain ⟨s2, h2mem, h2id, h2st⟩ := mark_limited_preserves _ now _ _ s1 h1mem
    exact ⟨s2, h2mem, h2id.trans h1id, h2st.trans h1st⟩
  · exact ⟨s1, mark_completed_reopen_preserves _ now sender _ s1 h1mem, h1id, h1st⟩
  · obtain ⟨s2, h2mem, h2id, h2st⟩ := mark_limited_preserves _ now _ _ s1
      (mark_completed_reopen_preserves _ now sender _ s1 h1mem)
    exact ⟨s2, h2mem, h2id.trans h1id, h2st.trans h1st⟩

/-- C5: whenever the classifier decision completes the session (and the
feedback commit succeeds), the cycle appends exactly one feedback row
whose `product_name` and `feedback_text` are the decision's own fields,
whose media URLs are all constructed S3 URLs under `feedback-media/` in
the configured bucket (never the raw provider references), and the
resolved session is left in status `completed`. -/
theorem completion_creates_matching_feedback (oracle : ModelOracle)
    (eff : EffectOracle) (bucket : String) (now : Nat) (st : Store) (sender : String)
    (hdb : eff.dbCommitOk = true)
    (hc : (analyze_conversation oracle now
      (resolveSession now st sender).1).1.is_feedback_session_complete = true) :
    (∃ rec,
      (reply_user oracle eff bucket now st sender).store.feedbacks =
          st.feedbacks ++ [rec]
        ∧ rec.sender_id = sender
        ∧ rec.product_name =
          (analyze_conversation oracle now (resolveSession now st sender).1).1.product_name
        ∧ rec.feedback_text =
          (analyze_conversation oracle now (resolveSession now st sender).1).1.feedback
        ∧ ∀ u ∈ rec.media_urls,
            ∃ k, u = "https://" ++ (bucket ++ (".s3.amazonaws.com/" ++ ("feedback-media/" ++ k))))
    ∧ ∃ s ∈ (reply_user oracle eff bucket now st sender).store.sessions,
        s.session_id = (resolveSession now st sender).2.1 ∧ s.status = "completed" := by
  have hfd : (get_reply_message oracle now st sender).1.feedback_data =
      some { product_name := (analyze_conversation oracle now
               (resolveSession now st sender).1).1.product_name
             feedback_text := (analyze_conversation oracle now
               (resolveSession now st sender).1).1.feedback
             media_urls := (analyze_conversation oracle now
               (resolveSession now st sender).1).1.media_urls } := by
    simp only [get_reply_message, hc, if_true]
  constructor
  · refine ⟨(download_media_files bucket eff sender
      { product_name := (analyze_conversation oracle now
          (resolveSession now st sender).1).1.product_name
        feedback_text := (analyze_conversation oracle now
          (resolveSession now st sender).1).1.feedback
        media_urls := (analyze_conversation oracle now
          (resolveSession now st sender).1).1.media_urls }).1, ?_, rfl, rfl, rfl, ?_⟩
    · have hfb : (reply_user oracle eff bucket now st sender).store.feedbacks =
          (get_reply_message oracle now st sender).2.1.feedbacks ++
            [(download_media_files bucket eff sender
              { product_name := (analyze_conversation oracle now
                  (resolveSession now st sender).1).1.product_name
                feedback_text := (analyze_conversation oracle now
                  (resolveSession now st sender).1).1.feedback
                media_urls := (analyze_conversation oracle now
                  (resolveSession now st sender).1).1.media_urls }).1] := by
        simp only [reply_user]
        rw [hfd]
        simp only [download_media_files_snd, hdb, if_true]
        split <;> rfl
      rw [hfb, get_reply_message_feedbacks]
    · intro u hu
      have hrec : (download_media_files bucket eff sender
          { product_name := (analyze_conversation oracle now
              (resolveSession now st sender).1).1.product_name
            feedback_text := (analyze_conversation oracle now
              (resolveSession now st sender).1).1.feedback
            media_urls := (analyze_conversation oracle now
              (resolveSession now st sender).1).1.media_urls }).1.media_urls =
          if 0 < (analyze_conversation oracle now
              (resolveSession now st sender).1).1.media_urls.length then
            relayAll bucket eff (analyze_conversation oracle now
              (resolveSession now st sender).1).1.media_urls
          else (analyze_conversation oracle now
            (resolveSession now st sender).1).1.media_urls := rfl
      rw [hrec] at hu
      split at hu
      · exact relayAll_durable _ _ _ _ hu
      · rename_i hl
        have hnil : (analyze_conversation oracle now
            (resolveSession now st sender).1).1.media_urls = [] :=
          List.length_eq_zero.mp (Nat.eq_zero_of_not_pos hl)
        rw [hnil] at hu
        exact absurd hu (List.not_mem_nil u)
  · rw [reply_user_sessions]
    exact get_reply_message_marks_completed oracle now st sender hc

/-- A model output completing the feedback session with no media. -/
def completeModelDecision : Decision :=
  { reply := "Thanks!", product_name := "AirPods Pro", feedback := "great",
    is_feedback_session_complete := true, reply_stage := some "complete" }

/-- An oracle whose model call always succeeds with
`completeModelDecision`. -/
def completeOracle : ModelOracle := fun _ => .success (some completeModelDecision)

/-- C5 witness: running the completing cycle on the scenario store yields
exactly one appended feedback row matching the decision and leaves the
resolved session completed. -/
theorem completion_creates_matching_feedback_witness :
    (∃ rec,
      (reply_user completeOracle plainEffects "bkt" 9 reopenScenarioStore "u").store.feedbacks =
          reopenScenarioStore.feedbacks ++ [rec]
        ∧ rec.sender_id = "u"
        ∧ rec.product_name =
          (analyze_conversation completeOracle 9
            (resolveSession 9 reopenScenarioStore "u").1).1.product_name
        ∧ rec.feedback_text =
          (analyze_conversation completeOracle 9
            (resolveSession 9 reopenScenarioStore "u").1).1.feedback
        ∧ ∀ u ∈ rec.media_urls,
            ∃ k, u = "https://" ++ ("bkt" ++ (".s3.amazonaws.com/" ++ ("feedback-media/" ++ k))))
    ∧ ∃ s ∈ (reply_user completeOracle plainEffects "bkt" 9 reopenScenarioStore "u").store.sessions,
        s.session_id = (resolveSession 9 reopenScenarioStore "u").2.1 ∧ s.status = "completed" :=
  completion_creates_matching_feedback completeOracle plainEffects "bkt" 9
    reopenScenarioStore "u" rfl (by decide)

/-! ## C10: an active session with no messages is not reused -/

/-- A record whose id differs from the updated key is untouched by
`updateSession`. -/
theorem updateSession_mem_of_ne (st : Store) (sid : String)
    (f : SessionRec → SessionRec) (s : SessionRec)
    (hne : s.session_id ≠ sid) (h : s ∈ st.sessions) :
    s ∈ (updateSession st sid f).sessions := by
  have hfix : (fun x => if x.session_id == sid then f x else x) s = s := by
    simp [hne]
  exact List.mem_map.mpr ⟨s, h, hfix⟩

@[simp] theorem mark_completed_false_nextId (st : Store) (now : Nat)
    (sender sid : String) :
    (mark_session_as_completed st now sender sid false).2.nextId = st.nextId := rfl

@[simp] theorem mark_completed_true_fst (st : Store) (now : Nat)
    (sender sid : String) :
    (mark_session_as_completed st now sender sid true).1 = toString st.nextId := rfl

/-- C10: when the sender's most recent session is active but has zero
stored chat messages, the cycle does not reuse it: the resolved history is
empty and a brand-new active session with a fresh id is appended, the id
used for the rest of the cycle is never the original session's, and the
original record survives the cycle unchanged — still `active`. -/
theorem empty_history_session_not_reused (oracle : ModelOracle) (now : Nat)
    (st : Store) (sender : String) (s : SessionRec)
    (hq : queryActiveSession st sender = some s)
    (hmsg : chatsOfSession st s.session_id = [])
    (hfresh : ∀ t ∈ st.sessions,
      t.session_id ≠ toString st.nextId ∧ t.session_id ≠ toString (st.nextId + 1)) :
    (resolveSession now st sender).1 = []
      ∧ (resolveSession now st sender).2.1 = toString st.nextId
      ∧ (resolveSession now st sender).2.1 ≠ s.session_id
      ∧ (resolveSession now st sender).2.2.sessions = st.sessions ++
          [{ session_id := toString st.nextId, sender_id := sender,
             status := "active", created_at := now }]
      ∧ (get_reply_message oracle now st sender).1.session_id ≠ s.session_id
      ∧ s ∈ (get_reply_message oracle now st sender).2.1.sessions
      ∧ s.status = "active" := by
  have hs_mem : s ∈ st.sessions := (queryActiveSession_spec st sender s hq).1
  have hs_act : s.status = "active" := (queryActiveSession_spec st sender s hq).2.2
  have hnone : get_user_unresolved_session_message st sender = none := by
    simp [get_user_unresolved_session_message, hq, hmsg]
  have hrsid : (resolveSession now st sender).2.1 = toString st.nextId := by
    simp [resolveSession, hnone]
  have hrs : (resolveSession now st sender).2.2.sessions = st.sessions ++
      [{ session_id := toString st.nextId, sender_id := sender,
         status := "active", created_at := now }] := by
    simp [resolveSession, hnone]
  have hrsnext : (resolveSession now st sender).2.2.nextId = st.nextId + 1 := by
    simp [resolveSession, hnone]
  have hne0 : s.session_id ≠ (resolveSession now st sender).2.1 := by
    rw [hrsid]; exact (hfresh s hs_mem).1
  have hbase : s ∈ (resolveSession now st sender).2.2.sessions := by
    rw [hrs]; exact List.mem_append_left _ hs_mem
  refine ⟨by simp [resolveSession, hnone], hrsid, fun h => hne0 h.symm, hrs, ?_, ?_, hs_act⟩
  · cases hcpl : (analyze_conversation oracle now
        (resolveSession now st sender).1).1.is_feedback_session_complete <;>
      cases hr : (analyze_conversation oracle now
        (resolveSession now st sender).1).1.reopen_session.getD false <;>
      simp only [get_reply_message, hcpl, hr, if_true, Bool.false_eq_true, if_false]
    · exact fun h => hne0 h.symm
    · intro h
      rw [mark_completed_true_fst, hrsnext] at h
      exact (hfresh s hs_mem).2 h.symm
    · exact fun h => hne0 h.symm
    · intro h
      rw [mark_completed_true_fst, mark_completed_false_nextId, hrsnext] at h
      exact (hfresh s hs_mem).2 h.symm
  · cases hcpl : (analyze_conversation oracle now
        (resolveSession now st sender).1).1.is_feedback_session_complete <;>
      cases hr : (analyze_conversation oracle now
        (resolveSession now st sender).1).1.reopen_session.getD false <;>
      cases hu : (analyze_conversation oracle now
        (resolveSession now st sender).1).1.user_limited_until <;>
      simp only [get_reply_message, hcpl, hr, hu, if_true, Bool.false_eq_true, if_false]
    · exact hbase
    · exact updateSession_mem_of_ne _ _ _ s hne0 hbase
    · exact mark_completed_reopen_preserves _ now sender _ s hbase
    · refine updateSession_mem_of_ne _ _ _ s ?_
        (mark_completed_reopen_preserves _ now sender _ s hbase)
      rw [mark_completed_true_fst, hrsnext]
      exact (hfresh s hs_mem).2
    · exact updateSession_mem_of_ne _ _ _ s hne0 hbase
    · exact updateSession_mem_of_ne _ _ _ s hne0
        (updateSession_mem_of_ne _ _ _ s hne0 hbase)
    · exact mark_completed_reopen_preserves _ now sender _ s
        (updateSession_mem_of_ne _ _ _ s hne0 hbase)
    · refine updateSession_mem_of_ne _ _ _ s ?_
        (mark_completed_reopen_preserves _ now sender _ s
          (updateSession_mem_of_ne _ _ _ s hne0 hbase))
      rw [mark_completed_true_fst, mark_completed_false_nextId, hrsnext]
      exact (hfresh s hs_mem).2

/-- A store whose single session is active but has no chat messages. -/
def emptySessionStore : Store :=
  { sessions := [{ session_id := "s1", sender_id := "u", status := "active",
                   created_at := 0 }]
    chats := [], feedbacks := [], nextId := 0 }

/-- An oracle returning a benign stage-one decision. -/
def benignOracle : ModelOracle :=
  fun _ => .success (some { reply := "What product?", reply_stage := some "product_name" })

/-- C10 witness: the cycle on `emptySessionStore` starts a second, fresh
session `"0"` with an empty history and leaves the original `s1` active. -/
theorem empty_history_session_not_reused_witness :
    (resolveSession 7 emptySessionStore "u").1 = []
      ∧ (resolveSession 7 emptySessionStore "u").2.1 = toString emptySessionStore.nextId
      ∧ (resolveSession 7 emptySessionStore "u").2.1 ≠
        (⟨"s1", "u", "active", 0, none, none⟩ : SessionRec).session_id
      ∧ (resolveSession 7 emptySessionStore "u").2.2.sessions = emptySessionStore.sessions ++
          [{ session_id := toString emptySessionStore.nextId, sender_id := "u",
             status := "active", created_at := 7 }]
      ∧ (get_reply_message benignOracle 7 emptySessionStore "u").1.session_id ≠
        (⟨"s1", "u", "active", 0, none, none⟩ : SessionRec).session_id
      ∧ (⟨"s1", "u", "active", 0, none, none⟩ : SessionRec) ∈
        (get_reply_message benignOracle 7 emptySessionStore "u").2.1.sessions
      ∧ (⟨"s1", "u", "active", 0, none, none⟩ : SessionRec).status = "active" :=
  empty_history_session_not_reused benignOracle 7 emptySessionStore "u"
    ⟨"s1", "u", "active", 0, none, none⟩ (by decide) rfl (by decide)

end FeedbackSvc
